import Mathlib

/-!
Verification of the range-extraction and multi-format rendering pipeline of
the excelllm repository (src/components/ExcelProcessor.tsx, `processSheet`).

The component delegates to the SheetJS (`xlsx`) utility functions
`decode_range`, `decode_cell`, `encode_cell`, `encode_col`, `sheet_to_json`
(options `header: 1`, `raw: false`, `defval: ""`, explicit `range`) and
`sheet_to_csv` (options `FS: ","`, `RS: "\n"`).  Those utilities are embedded
here following the library implementation (xlsx 0.18.x), specialised to the
option values the component passes.

Modelling choices, each matching the library on the inputs the component can
produce:

* A sheet is modelled as an optional used-range bound (the `!ref` field of a
  decoded worksheet) together with a cell lookup indexed by 0-based
  (row, column) integer coordinates.  The library looks cells up by their
  "A1"-style address string; since address encoding is injective on the
  coordinates reachable from a decoded range (row and column at least -1),
  coordinate indexing is equivalent.  A sheet produced by the decoder stores
  no cell at a key such as "A0", so lookups at negative coordinates return
  none for every decoder-produced sheet.
* A stored cell carries its formatted display text (the `w` field the
  library uses when `raw: false`) and an optional formula string (`f`).
  Stub and error cells, which the decoder only emits under options the
  component does not pass, are outside the model.
* JavaScript exceptions (the `throw` in `encode_col` for a negative column
  index, and the TypeError raised by reading a property of an undefined
  worksheet) are modelled with `Except String`; the component wraps the body
  in try/catch and maps every exception to one fixed error message.
* The record renderer (`JSON.stringify` of the grid) is not modelled; no
  claim concerns its output, and the grid itself is kept in the result.
-/

namespace ExcelLLM

/-- A 0-based cell coordinate as produced by the library `decode_cell`
(row `r`, column `c`); a missing row or column component decodes to -1. -/
structure CellRef where
  r : Int
  c : Int
deriving DecidableEq, Repr

/-- A rectangular bound, start and end inclusive, as produced by the library
`decode_range`. -/
structure Range where
  s : CellRef
  e : CellRef
deriving DecidableEq, Repr

/-- A stored (non-empty) cell of a decoded worksheet: `w` is the formatted
display text used by the renderers (`raw: false`), `f` the optional formula
expression string. -/
structure Cell where
  w : String
  f : Option String
deriving DecidableEq, Repr

/-- A decoded worksheet: the optional used-range bound (the `!ref` field) and
the cell lookup.  `get r c = none` means no cell is stored at the coordinate. -/
structure Sheet where
  ref : Option Range
  get : Int → Int → Option Cell

/-- A decoded workbook: the `Sheets` dictionary, keyed by sheet name. -/
structure Workbook where
  Sheets : List (String × Sheet)

/-- The inclusive integer interval `[lo, hi]` as a list, empty when `hi < lo`;
this is the iteration space of the library `for (i = lo; i <= hi; ++i)` loops. -/
def intRange (lo hi : Int) : List Int :=
  (List.range (hi + 1 - lo).toNat).map (fun (i : Nat) => lo + (i : Int))

/-- JavaScript `Array.prototype.join(sep)`: elements interleaved with the
separator, empty string for the empty array. -/
def joinSep (sep : String) : List String → String
  | [] => ""
  | [x] => x
  | x :: y :: xs => x ++ sep ++ joinSep sep (y :: xs)

/-- Concatenation of a list of strings (repeated `+=` accumulation). -/
def concatAll : List String → String
  | [] => ""
  | x :: xs => x ++ concatAll xs

/-- Library `decode_cell`: scans the characters, accumulating digits into the
row number and uppercase letters into the bijective base-26 column number,
ignoring everything else, and returns both minus one. -/
def decode_cell (l : List Char) : CellRef :=
  let p := l.foldl
    (fun (p : Nat × Nat) ch =>
      let n := ch.toNat
      if 48 ≤ n ∧ n ≤ 57 then (10 * p.1 + (n - 48), p.2)
      else if 65 ≤ n ∧ n ≤ 90 then (p.1, 26 * p.2 + (n - 64))
      else p)
    (0, 0)
  ⟨(p.1 : Int) - 1, (p.2 : Int) - 1⟩

/-- Split a character list at the first colon, as `indexOf(":")` plus the two
`slice` calls in the library `decode_range`. -/
def splitColon : List Char → Option (List Char × List Char)
  | [] => none
  | ch :: cs =>
    if ch = ':' then some ([], cs)
    else (splitColon cs).map (fun p => (ch :: p.1, p.2))

/-- Library `decode_range`: split at the first colon and decode both parts;
without a colon the single cell is both corners.  No validation and no
clamping is performed. -/
def decode_range (s : String) : Range :=
  match splitColon s.data with
  | none => ⟨decode_cell s.data, decode_cell s.data⟩
  | some (a, b) => ⟨decode_cell a, decode_cell b⟩

/-- Loop of the library `encode_col` with an explicit fuel argument (the
fuel bounds the number of produced letters; since the next value `n / 26` is
at most `n`, a fuel equal to the initial value always suffices). -/
def colStr26Go : Nat → Nat → String
  | _, 0 => ""
  | 0, _ + 1 => ""
  | fuel + 1, n + 1 =>
    colStr26Go fuel (n / 26) ++ String.singleton (Char.ofNat (n % 26 + 65))

/-- Bijective base-26 column string of the library `encode_col`, on the
successor representation (1 ↦ "A", 26 ↦ "Z", 27 ↦ "AA"); 0 yields "". -/
def colStr26 (n : Nat) : String :=
  colStr26Go n n

/-- Library `encode_col`, which throws on a negative column index. -/
def encode_colE (c : Int) : Except String String :=
  if c < 0 then .error ("invalid column " ++ toString c)
  else .ok (colStr26 (c + 1).toNat)

/-- Library `encode_cell`: column letters followed by the 1-based row number.
Unlike `encode_col` it does not throw; for the coordinates reachable here
(components at least -1) its loop agrees with `colStr26` on `(c+1).toNat`. -/
def encode_cell (R C : Int) : String :=
  colStr26 (C + 1).toNat ++ toString (R + 1)

/-- Display text contributed to the grid by one coordinate: the cell text when
a cell is stored, otherwise the `defval` empty string. -/
def jsonVal : Option Cell → String
  | none => ""
  | some c => c.w

/-- The row-major grid of display values over a bound, as built by the
`sheet_to_json` row loop with `header: 1`, `raw: false`, `defval: ""`
(blank rows are kept; every column of every row receives a value). -/
def gridPure (s : Sheet) (rng : Range) : List (List String) :=
  (intRange rng.s.r rng.e.r).map
    (fun R => (intRange rng.s.c rng.e.c).map (fun C => jsonVal (s.get R C)))

/-- The initial column scan of `sheet_to_json` and `sheet_to_csv`, which
computes `encode_col` for every column of the bound and therefore throws as
soon as a column index is negative. -/
def scanCols : List Int → Except String Unit
  | [] => .ok ()
  | c :: cs =>
    match encode_colE c with
    | .error e => .error e
    | .ok _ => scanCols cs

/-- Library `sheet_to_json` with `header: 1`, `raw: false`, `defval: ""` and
an explicit object `range`: returns `[]` for a missing worksheet or a
worksheet without a `!ref` used range; otherwise scans the columns (which can
throw) and builds the row-major grid over exactly the given range. -/
def sheet_to_json (ws : Option Sheet) (rng : Range) :
    Except String (List (List String)) :=
  match ws with
  | none => .ok []
  | some sheet =>
    match sheet.ref with
    | none => .ok []
    | some _ =>
      match scanCols (intRange rng.s.c rng.e.c) with
      | .error e => .error e
      | .ok _ => .ok (gridPure sheet rng)

/-- The formula-map entries contributed by one coordinate of the component
formula loop: a singleton when a cell is stored and carries a formula. -/
def cellEntries (s : Sheet) (R C : Int) : List (String × String) :=
  match s.get R C with
  | some cell =>
    match cell.f with
    | some f => [(encode_cell R C, f)]
    | none => []
  | none => []

/-- The component formula loop (lines 126-134): iterates the bound in
row-major order and records `cell.f` under the encoded address.  Addresses of
distinct coordinates are distinct, so the JavaScript object is an insertion-
ordered association list.  Reading `worksheet[cellAddress]` on an undefined
worksheet throws as soon as the loop body runs, i.e. when both intervals of
the bound are non-empty. -/
def formulaScan (ws : Option Sheet) (rng : Range) :
    Except String (List (String × String)) :=
  match ws with
  | some s =>
    .ok (((intRange rng.s.r rng.e.r).map
      (fun R => ((intRange rng.s.c rng.e.c).map
        (fun C => cellEntries s R C)).flatten)).flatten)
  | none =>
    if intRange rng.s.r rng.e.r = [] ∨ intRange rng.s.c rng.e.c = [] then .ok []
    else .error "TypeError: cannot read properties of undefined worksheet"

/-- Does a CSV field need quoting: it contains the field separator, the row
separator or a quote character (`forceQuotes` is not set). -/
def needsQuoteB (s : String) : Bool :=
  s.data.any (fun ch => ch == ',' || ch == '\n' || ch == '"')

/-- Double every quote character, the `replace` with doubled quotes of the
library `make_csv_row`. -/
def escQ : List Char → List Char
  | [] => []
  | ch :: cs => if ch = '"' then '"' :: '"' :: escQ cs else ch :: escQ cs

/-- Wrap the quote-doubled text in quotes. -/
def csvQuote (v : String) : String :=
  ⟨'"' :: (escQ v.data ++ ['"'])⟩

/-- One CSV field of the library `make_csv_row` (`FS ","`, `RS "\n"`): a
missing cell is the empty field; a stored cell contributes its display text,
quoted with doubled internal quotes when it contains a separator, newline or
quote; the literal text "ID" is always quoted (SYLK-detection guard). -/
def csvField : Option Cell → String
  | none => ""
  | some c =>
    let txt := if needsQuoteB c.w then csvQuote c.w else c.w
    if txt = "ID" then "\"ID\"" else txt

/-- The row/column walk of `sheet_to_csv` over a bound: fields joined by the
field separator, rows joined by the row separator (blank rows are kept). -/
def sheet_to_csv_rows (s : Sheet) (r : Range) : String :=
  joinSep "\n" ((intRange r.s.r r.e.r).map
    (fun R => joinSep "," ((intRange r.s.c r.e.c).map
      (fun C => csvField (s.get R C)))))

/-- Library `sheet_to_csv` with `FS: ","`, `RS: "\n"` as called on line 137:
it takes no range argument and serialises the whole used range (`!ref`) of
the worksheet; a missing worksheet or a worksheet without `!ref` yields "". -/
def sheet_to_csv (ws : Option Sheet) : Except String String :=
  match ws with
  | none => .ok ""
  | some s =>
    match s.ref with
    | none => .ok ""
    | some r =>
      match scanCols (intRange r.s.c r.e.c) with
      | .error e => .error e
      | .ok _ => .ok (sheet_to_csv_rows s r)

/-- The markdown table renderer (lines 139-151): empty string for an empty
grid; otherwise row 0 becomes the header row, a separator row of "---" cells
follows, then one row per remaining data row.  Cell values are joined with
" | " without any escaping. -/
def mkMarkdown (jd : List (List String)) : String :=
  match jd with
  | [] => ""
  | headers :: rows =>
    "| " ++ joinSep " | " headers ++ " |\n" ++
    ("| " ++ joinSep " | " (headers.map (fun _ => "---")) ++ " |\n") ++
    concatAll (rows.map (fun row => "| " ++ joinSep " | " row ++ " |\n"))

/-- The plain-text renderer (line 153): cells joined by tabs, rows by
newlines. -/
def mkText (jd : List (List String)) : String :=
  joinSep "\n" (jd.map (fun row => joinSep "\t" row))

/-- The analysis summary (lines 155-172): the fixed-order template array
joined with newlines.  A conditional entry that does not apply contributes an
empty string element to the join, exactly as in the source. -/
def mkExplanation (sheetName rangeStr : String) (jd : List (List String))
    (fm : List (String × String)) : String :=
  joinSep "\n" (
    ["# Excel Sheet Analysis: " ++ sheetName,
     "\n## Data Range: " ++ rangeStr,
     "\n## Structure:",
     "- Total rows: " ++ toString jd.length,
     "- Total columns: " ++ toString ((jd.head?.map List.length).getD 0),
     if 0 < jd.length then "\n## Headers: " ++ joinSep ", " (jd.headD []) else "",
     if 0 < fm.length then "\n## Formulas Found:" else ""]
    ++ fm.map (fun p => "- Cell " ++ p.1 ++ ": " ++ p.2)
    ++ ["\n## LLM Processing Notes:",
        "This Excel data has been converted for AI processing. The structure includes:",
        "1. Headers in the first row for context",
        "2. All formulas extracted and listed separately",
        "3. Data normalized to text format for better LLM understanding",
        "4. Range-specific extraction to focus on relevant data"])

/-- The result bundle assembled on lines 174-180 (the `JSON.stringify`
rendering of `jsonData` is not modelled; `jsonData` itself is kept). -/
structure ProcessedData where
  jsonData : List (List String)
  formulas : List (String × String)
  csv : String
  markdown : String
  text : String
  explanation : String
deriving DecidableEq

/-- The body of the component `processSheet` (lines 112-180): look the sheet
up (no existence check), decode the range (no validation), then build the
grid, the formula map and the renderings in source order.  Any modelled
JavaScript exception aborts the body before a result is assembled. -/
def processSheetE (wb : Workbook) (selectedSheet rangeStr : String) :
    Except String ProcessedData :=
  let worksheet := wb.Sheets.lookup selectedSheet
  let rangeObj := decode_range rangeStr
  match sheet_to_json worksheet rangeObj with
  | .error e => .error e
  | .ok jsonData =>
    match formulaScan worksheet rangeObj with
    | .error e => .error e
    | .ok formulas =>
      match sheet_to_csv worksheet with
      | .error e => .error e
      | .ok csv =>
        .ok { jsonData := jsonData
              formulas := formulas
              csv := csv
              markdown := mkMarkdown jsonData
              text := mkText jsonData
              explanation := mkExplanation selectedSheet rangeStr jsonData formulas }

/-- The user-visible outcome of `processSheet`: the success toast, or the one
generic catch-all error message of the `catch` block (lines 186-190). -/
def processMessage (wb : Workbook) (name rangeStr : String) : String :=
  match processSheetE wb name rangeStr with
  | .ok _ => "Processing complete! Data is ready for AI consumption."
  | .error _ => "Error processing sheet. Please check your range and try again."

/-! Concrete decoded workbooks used as test inputs. -/

/-- The Scenario A sheet: A1 holds 10, B1 holds the formula "=A1*2" with
computed value 20, A2 holds "x", B2 is empty. -/
def sheetA : Sheet where
  ref := some ⟨⟨0, 0⟩, ⟨1, 1⟩⟩
  get := fun R C =>
    if R = 0 ∧ C = 0 then some ⟨"10", none⟩
    else if R = 0 ∧ C = 1 then some ⟨"20", some "=A1*2"⟩
    else if R = 1 ∧ C = 0 then some ⟨"x", none⟩
    else none

/-- A workbook holding the Scenario A sheet under the name "Sheet1". -/
def wbA : Workbook := ⟨[("Sheet1", sheetA)]⟩

/-- A sheet whose used range spans two rows (A1 "x", A2 "y"). -/
def sheetCsv : Sheet where
  ref := some ⟨⟨0, 0⟩, ⟨1, 0⟩⟩
  get := fun R C =>
    if R = 0 ∧ C = 0 then some ⟨"x", none⟩
    else if R = 1 ∧ C = 0 then some ⟨"y", none⟩
    else none

/-- A workbook holding `sheetCsv` under the name "S". -/
def wbCsv : Workbook := ⟨[("S", sheetCsv)]⟩

/-- A decoded sheet with no cells: such a worksheet has no `!ref` field. -/
def emptySheet : Sheet where
  ref := none
  get := fun _ _ => none

/-- The Scenario B sheet: used range rows 1-5 of column A, each cell "v". -/
def sheetCol : Sheet where
  ref := some ⟨⟨0, 0⟩, ⟨4, 0⟩⟩
  get := fun R C =>
    if C = 0 ∧ 0 ≤ R ∧ R ≤ 4 then some ⟨"v", none⟩ else none

/-- Splitting a character list on a separator character (the formalisation of
splitting an emitted table line on the pipe separator). -/
def splitChar (c : Char) (l : List Char) : List (List Char) :=
  l.foldr
    (fun x acc =>
      if x = c then [] :: acc
      else
        match acc with
        | [] => [[x]]
        | a :: as => (x :: a) :: as)
    [[]]

/-- Parse the body of a quoted CSV field up to and including the closing
quote: a doubled quote is one literal quote, a single quote ends the field. -/
def parseQ : List Char → Option (List Char)
  | [] => none
  | ch :: cs =>
    if ch = '"' then
      match cs with
      | [] => some []
      | d :: ds => if d = '"' then (parseQ ds).map (fun l => '"' :: l) else none
    else (parseQ cs).map (fun l => ch :: l)

/-- Standard CSV parsing of one field: a field starting with a quote is
unescaped via `parseQ`, any other field denotes itself. -/
def parseCsvField (s : String) : Option String :=
  match s.data with
  | ch :: rest =>
    if ch = '"' then (parseQ rest).map (fun l => String.mk l) else some s
  | [] => some s

/-! Supporting lemmas. -/

theorem intRange_length (lo hi : Int) :
    (intRange lo hi).length = (hi + 1 - lo).toNat := by
  rw [intRange, List.length_map, List.length_range]

theorem mem_intRange {lo b x : Int} (h : x ∈ intRange lo b) :
    lo ≤ x ∧ x ≤ b := by
  rw [intRange] at h
  obtain ⟨i, hmem, rfl⟩ := List.mem_map.mp h
  have hilt : i < (b + 1 - lo).toNat := List.mem_range.mp hmem
  omega

theorem intRange_ne_nil {lo hi : Int} (h : lo ≤ hi) : intRange lo hi ≠ [] := by
  intro hnil
  have hlen := congrArg List.length hnil
  rw [intRange_length] at hlen
  simp only [List.length_nil] at hlen
  omega

theorem scanCols_ok : ∀ (l : List Int), (∀ x ∈ l, 0 ≤ x) → scanCols l = .ok ()
  | [], _ => rfl
  | c :: cs, h => by
    have hc : ¬ c < 0 := by
      have := h c (List.mem_cons_self c cs)
      omega
    simp only [scanCols, encode_colE, if_neg hc]
    exact scanCols_ok cs (fun x hx => h x (List.mem_cons_of_mem _ hx))

theorem joinSep_cons (sep x : String) {t : List String} (ht : t ≠ []) :
    joinSep sep (x :: t) = x ++ sep ++ joinSep sep t := by
  cases t with
  | nil => exact absurd rfl ht
  | cons y ys => rfl

theorem append_ne_nil_right {α : Type} (l : List α) {c : List α} (hc : c ≠ []) :
    l ++ c ≠ [] := by
  cases l <;> simp_all

/-! Claim theorems. -/

/-- C2 (code_bug evidence): the tabular (markdown) renderer performs no
escaping of pipe characters.  For the one-column grid whose single cell is
"a|b" the emitted header line is "| a|b |": splitting it on the pipe
separator yields 4 parts, while a one-column line without an embedded pipe
(such as "| x |") yields 3 — the embedded pipe corrupts the column
boundaries, contradicting the mandated escaping policy. -/
theorem markdown_pipe_not_escaped :
    mkMarkdown [["a|b"]] = "| a|b |\n| --- |\n"
    ∧ (splitChar '|' ("| a|b |".data)).length = 4
    ∧ (splitChar '|' ("| x |".data)).length = 3 := by
  refine ⟨rfl, by decide, by decide⟩

/-- C4: processing the range "A1:B2" on the Scenario A sheet (A1 = 10,
B1 = "=A1*2" with value 20, A2 = "x", B2 empty) yields exactly the Grid
[["10","20"],["x",""]] and exactly the FormulaMap with the single entry
B1 ↦ "=A1*2". -/
theorem scenarioA_grid_and_formulas :
    (processSheetE wbA "Sheet1" "A1:B2").toOption.map
        (fun pd => (pd.jsonData, pd.formulas))
      = some ([["10", "20"], ["x", ""]], [("B1", "=A1*2")]) := by
  decide

/-- C5 (counterexample): resolving "Z1:A1" does not fail — processing
succeeds and an ExtractionResult is produced, refuting the claim that an
InvalidRangeError is raised and no result is produced. -/
theorem reversed_range_no_error :
    (processSheetE wbA "Sheet1" "Z1:A1").isOk = true := by
  rfl

/-- C5 (amended): resolving "Z1:A1" yields the unswapped, unclamped bound
with start column 25 and end column 0 (rows both 0), no error is raised, and
extraction proceeds to produce a degenerate ExtractionResult whose Grid is a
single empty row and whose FormulaMap is empty. -/
theorem reversed_range_degenerate_result :
    decode_range "Z1:A1" = ⟨⟨0, 25⟩, ⟨0, 0⟩⟩
    ∧ (processSheetE wbA "Sheet1" "Z1:A1").toOption.map
        (fun pd => (pd.jsonData, pd.formulas))
      = some ([[]], []) := by
  exact ⟨rfl, rfl⟩

/-- C10: the tabular (markdown) renderer returns the empty string for a grid
with zero rows: no header row and no separator row are emitted. -/
theorem markdown_empty_grid (jd : List (List String)) (h : jd.length = 0) :
    mkMarkdown jd = "" := by
  cases jd with
  | nil => rfl
  | cons r rs => simp at h

/-- C10 witness: the empty grid has zero rows and renders to "". -/
theorem markdown_empty_grid_witness :
    ([] : List (List String)).length = 0
    ∧ mkMarkdown ([] : List (List String)) = "" :=
  ⟨rfl, markdown_empty_grid [] rfl⟩

/-- C3 (counterexample): a decoded sheet with no cells has no used range
(`!ref`), and extraction on it returns the empty grid for every bound — for
the valid resolved bound A1:A1 the grid has 0 rows instead of the claimed
end.row - start.row + 1 = 1. -/
theorem grid_shape_fails_without_ref :
    sheet_to_json (some emptySheet) ⟨⟨0, 0⟩, ⟨0, 0⟩⟩ = .ok []
    ∧ ((([] : List (List String)).length : Int) ≠ (0 : Int) - 0 + 1) := by
  exact ⟨rfl, by decide⟩

/-- C7 (counterexample): resolving the whole-column expression "A:A" on the
sheet whose used range is rows 1-5 does not yield the bound A1:A5 — it
yields the bound with both rows -1 — and extraction over it materialises one
out-of-sheet row containing a single empty string, not the five used rows. -/
theorem whole_column_not_clamped :
    decode_range "A:A" = ⟨⟨-1, 0⟩, ⟨-1, 0⟩⟩
    ∧ decode_range "A:A" ≠ ⟨⟨0, 0⟩, ⟨4, 0⟩⟩
    ∧ sheet_to_json (some sheetCol) (decode_range "A:A") = .ok [[""]] := by
  exact ⟨rfl, by decide, rfl⟩

/-- C1 (counterexample): the delimited (CSV) rendering is produced from the
whole worksheet, not from the extracted range.  Extracting "A1:A1" from a
sheet whose used range holds two rows yields a one-row Grid, but the CSV
output "x\ny" carries both used-range rows — a cell outside the extracted
range appears in the CSV. -/
theorem csv_ignores_selected_range :
    (processSheetE wbCsv "S" "A1:A1").toOption.map
        (fun pd => (pd.jsonData, pd.csv))
      = some ([["x"]], "x\ny")
    ∧ ("x\ny" ≠ joinSep "\n" ["x"]) := by
  exact ⟨rfl, by decide⟩

/-- C6 (counterexample): processing with the sheet name "DoesNotExist" fails,
but its user-visible message is exactly the message produced by a failing
range ("1:1" throws inside the column scan on an existing sheet): the two
failure kinds are reported with one identical generic catch-all message, and
the message does not identify the missing sheet. -/
theorem unknown_sheet_generic_message :
    (processSheetE wbA "DoesNotExist" "A1:Z100").isOk = false
    ∧ (processSheetE wbA "Sheet1" "1:1").isOk = false
    ∧ processMessage wbA "DoesNotExist" "A1:Z100"
        = processMessage wbA "Sheet1" "1:1" := by
  exact ⟨rfl, rfl, rfl⟩

/-- C3 (amended): for every sheet that defines a used range (`!ref`) and
every resolved bound (components non-negative, start at most end),
extraction succeeds and yields exactly the row-major grid over the bound:
the number of rows is end.row - start.row + 1, and the length of every row
— read off as the list of row lengths being constantly
end.column - start.column + 1 — matches the bound width; a coordinate with
no backing cell contributes the explicit empty string via `jsonVal`. -/
theorem grid_shape_invariant (sheet : Sheet) (rng : Range) (r0 : Range)
    (href : sheet.ref = some r0)
    (_hsr : 0 ≤ rng.s.r) (hsc : 0 ≤ rng.s.c)
    (hr : rng.s.r ≤ rng.e.r) (hc : rng.s.c ≤ rng.e.c) :
    sheet_to_json (some sheet) rng = .ok (gridPure sheet rng)
    ∧ ((gridPure sheet rng).length : Int) = rng.e.r - rng.s.r + 1
    ∧ (gridPure sheet rng).map (fun row => (row.length : Int))
        = List.replicate (gridPure sheet rng).length (rng.e.c - rng.s.c + 1) := by
  refine ⟨?_, ?_, ?_⟩
  · have hcols : scanCols (intRange rng.s.c rng.e.c) = .ok () :=
      scanCols_ok _ (fun x hx => le_trans hsc (mem_intRange hx).1)
    simp only [sheet_to_json, href, hcols]
  · rw [gridPure, List.length_map, intRange_length]
    omega
  · simp only [gridPure, List.map_map, Function.comp_def, List.length_map,
      intRange_length]
    rw [List.map_const', intRange_length]
    congr 1
    omega

/-- C3 witness: the amended shape invariant evaluated on the Scenario A sheet
with the bound A1:B2. -/
theorem grid_shape_invariant_witness :
    sheetA.ref = some ⟨⟨0, 0⟩, ⟨1, 1⟩⟩
    ∧ gridPure sheetA ⟨⟨0, 0⟩, ⟨1, 1⟩⟩ = [["10", "20"], ["x", ""]]
    ∧ (sheet_to_json (some sheetA) ⟨⟨0, 0⟩, ⟨1, 1⟩⟩
          = .ok (gridPure sheetA ⟨⟨0, 0⟩, ⟨1, 1⟩⟩)
        ∧ ((gridPure sheetA ⟨⟨0, 0⟩, ⟨1, 1⟩⟩).length : Int) = (1 : Int) - 0 + 1
        ∧ (gridPure sheetA ⟨⟨0, 0⟩, ⟨1, 1⟩⟩).map (fun row => (row.length : Int))
            = List.replicate (gridPure sheetA ⟨⟨0, 0⟩, ⟨1, 1⟩⟩).length
                ((1 : Int) - 0 + 1)) :=
  ⟨rfl, by decide,
    grid_shape_invariant sheetA ⟨⟨0, 0⟩, ⟨1, 1⟩⟩ ⟨⟨0, 0⟩, ⟨1, 1⟩⟩ rfl
      (by decide) (by decide) (by decide) (by decide)⟩

/-- C6 (amended): invoking process with a sheet name absent from the decoded
workbook fails — the formula scan throws on the undefined worksheet as soon as
the decoded bound is non-degenerate — and no ExtractionResult is produced;
but the failure is reported with the one generic catch-all message, the same
message every processing failure produces, rather than a distinct message
identifying the missing sheet. -/
theorem unknown_sheet_error_behavior (wb : Workbook) (name rangeStr : String)
    (hlookup : wb.Sheets.lookup name = none)
    (hr : (decode_range rangeStr).s.r ≤ (decode_range rangeStr).e.r)
    (hc : (decode_range rangeStr).s.c ≤ (decode_range rangeStr).e.c) :
    (processSheetE wb name rangeStr).isOk = false
    ∧ processMessage wb name rangeStr
        = "Error processing sheet. Please check your range and try again." := by
  have hscan : formulaScan none (decode_range rangeStr)
      = .error "TypeError: cannot read properties of undefined worksheet" := by
    simp only [formulaScan]
    rw [if_neg]
    rintro (h1 | h2)
    · exact intRange_ne_nil hr h1
    · exact intRange_ne_nil hc h2
  constructor
  · simp only [processSheetE, hlookup, sheet_to_json, hscan]
    rfl
  · simp only [processMessage, processSheetE, hlookup, sheet_to_json, hscan]

/-- C6 witness: the amended unknown-sheet behaviour evaluated on the
Scenario A workbook with the sheet name "DoesNotExist" and the component
default range "A1:Z100". -/
theorem unknown_sheet_error_behavior_witness :
    wbA.Sheets.lookup "DoesNotExist" = none
    ∧ (decode_range "A1:Z100").s.r ≤ (decode_range "A1:Z100").e.r
    ∧ (decode_range "A1:Z100").s.c ≤ (decode_range "A1:Z100").e.c
    ∧ (processSheetE wbA "DoesNotExist" "A1:Z100").isOk = false
    ∧ processMessage wbA "DoesNotExist" "A1:Z100"
        = "Error processing sheet. Please check your range and try again." := by
  refine ⟨rfl, by decide, by decide, ?_, ?_⟩
  · exact (unknown_sheet_error_behavior wbA "DoesNotExist" "A1:Z100" rfl
      (by decide) (by decide)).1
  · exact (unknown_sheet_error_behavior wbA "DoesNotExist" "A1:Z100" rfl
      (by decide) (by decide)).2

/-- C7 (amended): resolving the whole-column expression "A:A" yields the
bound with start and end row -1 and column 0 (the absent row number decodes
to row -1); the bound is not clamped to the used range the sheet supplies,
and extraction over it materialises a single out-of-sheet row containing one
empty string, for every sheet that has a used range and stores no cell at
row -1. -/
theorem whole_column_row_minus_one (sheet : Sheet) (r0 : Range)
    (href : sheet.ref = some r0) (hneg : sheet.get (-1) 0 = none) :
    decode_range "A:A" = ⟨⟨-1, 0⟩, ⟨-1, 0⟩⟩
    ∧ sheet_to_json (some sheet) (decode_range "A:A") = .ok [[""]] := by
  have hd : decode_range "A:A" = ⟨⟨-1, 0⟩, ⟨-1, 0⟩⟩ := by decide
  refine ⟨hd, ?_⟩
  rw [hd]
  have hscan : scanCols [0] = .ok () := rfl
  have hrows : intRange (-1) (-1) = [-1] := by decide
  have hcols : intRange 0 0 = [0] := by decide
  simp only [sheet_to_json, href, gridPure, hrows, hcols, hscan, List.map_cons,
    List.map_nil, hneg, jsonVal]

/-- C7 witness: the amended whole-column behaviour evaluated on the
Scenario B sheet (used range rows 1-5 of column A). -/
theorem whole_column_row_minus_one_witness :
    sheetCol.ref = some ⟨⟨0, 0⟩, ⟨4, 0⟩⟩
    ∧ sheetCol.get (-1) 0 = none
    ∧ decode_range "A:A" = ⟨⟨-1, 0⟩, ⟨-1, 0⟩⟩
    ∧ sheet_to_json (some sheetCol) (decode_range "A:A") = .ok [[""]] := by
  refine ⟨rfl, by decide, ?_, ?_⟩
  · exact (whole_column_row_minus_one sheetCol ⟨⟨0, 0⟩, ⟨4, 0⟩⟩ rfl (by decide)).1
  · exact (whole_column_row_minus_one sheetCol ⟨⟨0, 0⟩, ⟨4, 0⟩⟩ rfl (by decide)).2

/-- C8: every key of the produced FormulaMap is the encoded address of a
coordinate lying inside the bound the formula scan walked (start.row ≤ row ≤
end.row and start.column ≤ column ≤ end.column), and an entry exists only
for a stored cell that actually carries that formula expression. -/
theorem formula_keys_within_bound (sheet : Sheet) (rng : Range)
    (out : List (String × String))
    (hout : formulaScan (some sheet) rng = .ok out)
    (k f : String) (hmem : (k, f) ∈ out) :
    ∃ R C, rng.s.r ≤ R ∧ R ≤ rng.e.r ∧ rng.s.c ≤ C ∧ C ≤ rng.e.c
      ∧ k = encode_cell R C
      ∧ ∃ cell, sheet.get R C = some cell ∧ cell.f = some f := by
  simp only [formulaScan, Except.ok.injEq] at hout
  subst hout
  obtain ⟨L, hLmem, hkL⟩ := List.mem_flatten.mp hmem
  obtain ⟨R, hR, rfl⟩ := List.mem_map.mp hLmem
  obtain ⟨L2, hL2mem, hkL2⟩ := List.mem_flatten.mp hkL
  obtain ⟨C, hC, rfl⟩ := List.mem_map.mp hL2mem
  have hRb := mem_intRange hR
  have hCb := mem_intRange hC
  cases hget : sheet.get R C with
  | none => simp [cellEntries, hget] at hkL2
  | some cell =>
    cases hf : cell.f with
    | none => simp [cellEntries, hget, hf] at hkL2
    | some f0 =>
      simp only [cellEntries, hget, hf, List.mem_singleton, Prod.mk.injEq]
        at hkL2
      obtain ⟨hk, hf2⟩ := hkL2
      exact ⟨R, C, hRb.1, hRb.2, hCb.1, hCb.2, hk, cell, hget, by rw [hf, hf2]⟩

/-- C8 witness: the key invariant evaluated on the Scenario A extraction,
whose FormulaMap holds the single entry B1 ↦ "=A1*2". -/
theorem formula_keys_within_bound_witness :
    formulaScan (some sheetA) ⟨⟨0, 0⟩, ⟨1, 1⟩⟩ = .ok [("B1", "=A1*2")]
    ∧ ("B1", "=A1*2") ∈ [("B1", "=A1*2")]
    ∧ (∃ R C, (⟨⟨0, 0⟩, ⟨1, 1⟩⟩ : Range).s.r ≤ R
        ∧ R ≤ (⟨⟨0, 0⟩, ⟨1, 1⟩⟩ : Range).e.r
        ∧ (⟨⟨0, 0⟩, ⟨1, 1⟩⟩ : Range).s.c ≤ C
        ∧ C ≤ (⟨⟨0, 0⟩, ⟨1, 1⟩⟩ : Range).e.c
        ∧ "B1" = encode_cell R C
        ∧ ∃ cell, sheetA.get R C = some cell ∧ cell.f = some "=A1*2") := by
  refine ⟨rfl, by decide, ?_⟩
  exact formula_keys_within_bound sheetA ⟨⟨0, 0⟩, ⟨1, 1⟩⟩ [("B1", "=A1*2")]
    rfl "B1" "=A1*2" (by decide)

theorem parseQ_escQ (l : List Char) : parseQ (escQ l ++ ['"']) = some l := by
  induction l with
  | nil => rfl
  | cons ch cs ih =>
    by_cases hch : ch = '"'
    · subst hch
      simp only [escQ, if_pos rfl, List.cons_append]
      simp [parseQ, ih]
    · simp only [escQ, if_neg hch, List.cons_append]
      rw [parseQ.eq_def]
      simp [hch, ih]

theorem parseCsvField_quote (l : List Char) :
    parseCsvField ⟨'"' :: (escQ l ++ ['"'])⟩ = some ⟨l⟩ := by
  simp [parseCsvField, parseQ_escQ]

theorem csvField_roundtrip (cell : Cell) :
    parseCsvField (csvField (some cell)) = some cell.w := by
  obtain ⟨w, f⟩ := cell
  show parseCsvField (csvField (some ⟨w, f⟩)) = some w
  by_cases hq : needsQuoteB w
  · have hne : csvQuote w ≠ "ID" := by
      intro h
      have hdata := congrArg String.data h
      have hid : "ID".data = ['I', 'D'] := rfl
      simp only [csvQuote, hid, List.cons.injEq] at hdata
      exact absurd hdata.1 (by decide)
    have hform : csvField (some ⟨w, f⟩) = csvQuote w := by
      simp [csvField, hq, hne]
    rw [hform]
    exact parseCsvField_quote w.data
  · have hqf : needsQuoteB w = false := by simpa using hq
    by_cases hid : w = "ID"
    · subst hid
      show parseCsvField "\"ID\"" = some "ID"
      decide
    · have hform : csvField (some ⟨w, f⟩) = w := by
        simp [csvField, hqf, hid]
      rw [hform]
      cases hd : w.data with
      | nil => simp [parseCsvField, hd]
      | cons ch rest =>
        have hch : ¬ ch = '"' := by
          have hqf2 : w.data.any (fun c => c == ',' || c == '\n' || c == '"')
              = false := by
            simpa [needsQuoteB] using hqf
          have hmem : ch ∈ w.data := by
            rw [hd]
            exact List.mem_cons_self _ _
          have hc := List.any_eq_false.mp hqf2 ch hmem
          simp at hc
          exact hc.2
        simp [parseCsvField, hd, hch]

/-- C1 (amended): the delimited (CSV) rendering encodes the cells of the
worksheet's entire used range (`!ref`) — the renderer receives no range and
serialises the used-range walk — using comma as the field separator and
newline as the row separator; every field round-trips through standard CSV
parsing (a field is quoted with internal quotes doubled exactly when the
value contains a separator, newline or quote), and in particular the cell
value "a,b" produces the quoted field "a,b" in the output. -/
theorem csv_used_range_quoting_roundtrip :
    (∀ (sheet : Sheet) (r : Range), sheet.ref = some r → 0 ≤ r.s.c →
        sheet_to_csv (some sheet) = .ok (sheet_to_csv_rows sheet r))
    ∧ (∀ cell : Cell, parseCsvField (csvField (some cell)) = some cell.w)
    ∧ csvField (some ⟨"a,b", none⟩) = "\"a,b\"" := by
  refine ⟨?_, csvField_roundtrip, by decide⟩
  intro sheet r href hc
  have hscan : scanCols (intRange r.s.c r.e.c) = .ok () :=
    scanCols_ok _ (fun x hx => le_trans hc (mem_intRange hx).1)
  simp only [sheet_to_csv, href, hscan]

/-- C1 witness: the amended CSV behaviour evaluated on the two-row sheet and
on the comma-bearing cell value "a,b". -/
theorem csv_used_range_quoting_roundtrip_witness :
    sheetCsv.ref = some ⟨⟨0, 0⟩, ⟨1, 0⟩⟩
    ∧ (0 : Int) ≤ 0
    ∧ sheet_to_csv (some sheetCsv) = .ok (sheet_to_csv_rows sheetCsv ⟨⟨0, 0⟩, ⟨1, 0⟩⟩)
    ∧ sheet_to_csv_rows sheetCsv ⟨⟨0, 0⟩, ⟨1, 0⟩⟩ = "x\ny"
    ∧ parseCsvField (csvField (some ⟨"a,b", none⟩)) = some "a,b" := by
  refine ⟨rfl, by decide, ?_, by decide, ?_⟩
  · exact csv_used_range_quoting_roundtrip.1 sheetCsv ⟨⟨0, 0⟩, ⟨1, 0⟩⟩ rfl
      (by decide)
  · exact csv_used_range_quoting_roundtrip.2.1 ⟨"a,b", none⟩

theorem joinSep_formula_lines (g : (String × String) → String)
    (C : List String) (hC : C ≠ []) :
    ∀ (fm : List (String × String)),
      "\n" ++ joinSep "\n" (fm.map g ++ C)
        = concatAll (fm.map (fun p => "\n" ++ g p))
            ++ ("\n" ++ joinSep "\n" C) := by
  intro fm
  induction fm with
  | nil => simp [concatAll]
  | cons p rest ih =>
    rw [List.map_cons, List.cons_append,
      joinSep_cons _ _ (append_ne_nil_right _ hC),
      List.map_cons, concatAll]
    simp only [String.append_assoc]
    rw [ih]

/-- C9: the analysis summary is a deterministic string template over the
extraction result, containing, in this fixed order: the sheet name, the
range expression, the row count, the column count taken from the length of
row 0 (0 for an empty grid), the header-row values joined as a comma list
(the comma list omitted when the grid has zero rows), one "Cell address:
formula" line per FormulaMap entry together with the "Formulas Found"
heading (both omitted when the map is empty, each absent section leaving
only its blank placeholder line), and the fixed concluding note block. -/
theorem explanation_fixed_template (sheetName rangeStr : String)
    (jd : List (List String)) (fm : List (String × String)) :
    mkExplanation sheetName rangeStr jd fm =
      "# Excel Sheet Analysis: " ++ sheetName
      ++ "\n" ++ ("\n## Data Range: " ++ rangeStr)
      ++ "\n" ++ "\n## Structure:"
      ++ "\n" ++ ("- Total rows: " ++ toString jd.length)
      ++ "\n" ++ ("- Total columns: " ++ toString ((jd.head?.map List.length).getD 0))
      ++ "\n" ++ (if 0 < jd.length
          then "\n## Headers: " ++ joinSep ", " (jd.headD []) else "")
      ++ "\n" ++ (if 0 < fm.length then "\n## Formulas Found:" else "")
      ++ concatAll (fm.map (fun p => "\n" ++ ("- Cell " ++ p.1 ++ ": " ++ p.2)))
      ++ "\n" ++ "\n## LLM Processing Notes:"
      ++ "\n" ++ "This Excel data has been converted for AI processing. The structure includes:"
      ++ "\n" ++ "1. Headers in the first row for context"
      ++ "\n" ++ "2. All formulas extracted and listed separately"
      ++ "\n" ++ "3. Data normalized to text format for better LLM understanding"
      ++ "\n" ++ "4. Range-specific extraction to focus on relevant data" := by
  rw [mkExplanation]
  simp only [List.cons_append, List.nil_append]
  simp only [joinSep]
  rw [joinSep_cons _ _ (append_ne_nil_right _ (List.cons_ne_nil _ _))]
  simp only [String.append_assoc]
  rw [joinSep_formula_lines _ _ (List.cons_ne_nil _ _)]
  simp only [joinSep]
  simp [String.append_assoc]

end ExcelLLM
